import Mathlib

/-!
Shallow embedding of `src/app.py` (Multilingual Audio Summarizer).

External collaborators (speech recognizer, generative model, translator,
SMTP transport, MongoDB collections) are modelled as explicit parameters:
an oracle function or an `Except` value stands for the network call, and a
`List` of documents stands for a MongoDB collection. File-system scratch
state is a `List String` of existing paths. All definitions are translated
from the source; the theorems at the end settle the claims.
-/

namespace AudioSummarizer

/-! ### Language table (src/app.py lines 56-60) -/

/-- The `languages` dict: display name to locale code, in source order. -/
def languages : List (String × String) :=
  [("Telugu", "te-IN"), ("Hindi", "hi-IN"), ("English", "en-US"), ("Spanish", "es"),
   ("French", "fr"), ("German", "de"), ("Portuguese", "pt"), ("Italian", "it"),
   ("Japanese", "ja"), ("Chinese", "zh")]

/-- Forward lookup `languages[name]` (first binding wins; keys are distinct). -/
def languageTag_code (name : String) : Option String :=
  (languages.find? (fun p => p.1 == name)).map (fun p => p.2)

/-- Reverse lookup through `lang_map = {v: k for k, v in languages.items()}`
(src/app.py line 193). Codes are distinct, so first match equals dict lookup. -/
def languageTag_name (code : String) : Option String :=
  (languages.find? (fun p => p.2 == code)).map (fun p => p.1)

/-- `lang_map.get(lang_code, "English")` (src/app.py line 194). -/
def lang_name_of (lang_code : String) : String :=
  (languageTag_name lang_code).getD "English"

/-! ### translate_summary (src/app.py lines 202-209) -/

/-- Python `target_lang.split('-')[0]`: the part before the first dash. -/
def split_head (s : String) : String :=
  s.takeWhile (fun c => c != '-')

/-- `translate_summary(summary_text, target_lang)`. The googletrans engine is a
parameter; `Except.error` stands for any exception it raises. On error the
handler shows a warning and returns the original text (line 209). -/
def translate_summary (engine : String → String → Except String String)
    (summary_text target_lang : String) : String :=
  match engine summary_text (split_head target_lang) with
  | Except.ok t => t
  | Except.error _ => summary_text

/-! ### transcribe_audio (src/app.py lines 174-188) -/

/-- Outcome of `r.recognize_google`: text, `sr.UnknownValueError`, or
`sr.RequestError`. -/
inductive TranscribeOutcome where
  | text (t : String)
  | unintelligible
  | serviceUnavailable (msg : String)
deriving DecidableEq

/-- `os.unlink` guarded by `os.path.exists`: remove the path from the
file-system model. -/
def deleteFile (fs : List String) (p : String) : List String :=
  fs.filter (fun q => q != p)

/-- `transcribe_audio(audio_file, lang_code)`: returns the transcript on
success and `None` on either recognizer failure; the `finally` block unlinks
`audio_file` on every path before returning. Result is (return value,
file system after the call). -/
def transcribe_audio (fs : List String) (recognize : TranscribeOutcome)
    (audio_file : String) : Option String × List String :=
  let fsAfter := deleteFile fs audio_file
  match recognize with
  | TranscribeOutcome.text t => (some t, fsAfter)
  | TranscribeOutcome.unintelligible => (none, fsAfter)
  | TranscribeOutcome.serviceUnavailable _ => (none, fsAfter)

/-! ### extract_audio_from_video (src/app.py lines 146-172) -/

/-- Failure kinds of video normalization: `VideoFileClip` raising, the clip
having no audio track, or `write_audiofile` raising. -/
inductive VideoErr where
  | decodeError (msg : String)
  | noAudioTrack
  | writeError (msg : String)
deriving DecidableEq

/-- Result of `extract_audio_from_video`: the returned wav path (if any), the
file system after the call, and the failure kind shown to the user (if any). -/
structure ExtractResult where
  handle : Option String
  fs : List String
  err : Option VideoErr
deriving DecidableEq

/-- `extract_audio_from_video(uploaded_video)`. `temp_video_path` and
`wav_file_path` are the fresh names `tempfile.NamedTemporaryFile` hands out;
`decode` is the outcome of `VideoFileClip(temp_video_path)` (`Except.ok
hasAudio` when it opens, carrying whether `video_clip.audio` is set);
`writeAudio` is the outcome of `video_clip.audio.write_audiofile`. The source
unlinks the temp video before returning on every path, and unlinks the wav in
the exception handler (lines 157, 163, 168-171). -/
def extract_audio_from_video (fs : List String) (temp_video_path wav_file_path : String)
    (decode : Except String Bool) (writeAudio : Except String Unit) : ExtractResult :=
  let fs1 := temp_video_path :: fs
  match decode with
  | Except.error e =>
      { handle := none, fs := deleteFile fs1 temp_video_path,
        err := some (VideoErr.decodeError e) }
  | Except.ok hasAudio =>
      if hasAudio then
        let fs2 := wav_file_path :: fs1
        match writeAudio with
        | Except.ok _ =>
            { handle := some wav_file_path, fs := deleteFile fs2 temp_video_path,
              err := none }
        | Except.error e =>
            { handle := none,
              fs := deleteFile (deleteFile fs2 temp_video_path) wav_file_path,
              err := some (VideoErr.writeError e) }
      else
        { handle := none, fs := deleteFile fs1 temp_video_path,
          err := some VideoErr.noAudioTrack }

/-! ### summarize_text (src/app.py lines 190-200) -/

/-- `summarize_text(text, lang_code)`. `engine` is
`model.generate_content` on the built prompt; any exception becomes the
placeholder return value `"Summary unavailable"` (line 200). -/
def summarize_text (engine : String → Except String String)
    (text lang_code : String) : String :=
  let lang_name := lang_name_of lang_code
  match engine ("Give a very short summary of this text in " ++ lang_name ++ ":\n" ++ text) with
  | Except.ok r => r
  | Except.error _ => "Summary unavailable"

/-! ### send_email / send_notes_email (src/app.py lines 96-130) -/

/-- Does `[^@]+\.[^@]+` match somewhere at the front of `l`, with the leading
`[^@]+` allowed to be empty (the nonempty requirement is imposed by the
caller peeling the first character)? True iff `l` decomposes as an at-sign-free
block `x`, then a dot, then a character `c` that is not an at-sign, then
anything. -/
def hasDotPat : List Char → Bool
  | [] => false
  | a :: r =>
    (a == '.' && (match r with | c :: _ => c != '@' | [] => false))
      || (a != '@' && hasDotPat r)

/-- The domain side `[^@]+\.[^@]+` after the at-sign: at least one non-at
character, then a dot, then at least one non-at character. -/
def domainPat : List Char → Bool
  | [] => false
  | a :: r => a != '@' && hasDotPat r

/-- Scan the local part for the first at-sign; everything before it is
`[^@]+` by construction. -/
def findAtSign : List Char → Bool
  | [] => false
  | '@' :: r => domainPat r
  | _ :: r => findAtSign r

/-- Python `re.match(r"[^@]+@[^@]+\.[^@]+", user_email)` as a Boolean:
a match anchored at the start (the rest of the string is unconstrained). -/
def re_match_email : List Char → Bool
  | [] => false
  | a :: r => a != '@' && findAtSign r

/-- What an email handler run did: whether an SMTP connection was attempted
and how the call ended. -/
inductive EmailOutcome where
  | invalidAddress
  | sent
  | failed (msg : String)
deriving DecidableEq

/-- Observable trace of one email handler call. -/
structure EmailTrace where
  smtpAttempted : Bool
  outcome : EmailOutcome
deriving DecidableEq

/-- `send_email(user_email, summary_text)`: validates the address with the
regex first and returns without touching SMTP when it fails; otherwise the
whole `SMTP(...)/starttls/login/sendmail` block is the `transport` outcome. -/
def send_email (transport : Except String Unit) (user_email : String)
    (_summary_text : String) : EmailTrace :=
  if re_match_email user_email.data then
    match transport with
    | Except.ok _ => { smtpAttempted := true, outcome := EmailOutcome.sent }
    | Except.error e => { smtpAttempted := true, outcome := EmailOutcome.failed e }
  else
    { smtpAttempted := false, outcome := EmailOutcome.invalidAddress }

/-- `send_notes_email(user_email, notes)`: no address validation at all; it
goes straight into the `try` block and attempts the SMTP connection. -/
def send_notes_email (transport : Except String Unit) (_user_email : String)
    (_notes : String) : EmailTrace :=
  match transport with
  | Except.ok _ => { smtpAttempted := true, outcome := EmailOutcome.sent }
  | Except.error e => { smtpAttempted := true, outcome := EmailOutcome.failed e }

/-! ### The sessions collection (MongoDB `sessions_collection`) -/

/-- A document of `sessions_collection`. Every insert in the source writes
`user_id` and `session_name`; the result fields appear only once
`update_one` with `$set` has run. -/
structure SessionDoc where
  user_id : String
  session_name : String
  transcription : Option String := none
  summary : Option String := none
  filename : Option String := none
deriving DecidableEq

/-- `sessions_collection.find({"user_id": user_id})`. -/
def find_sessions (coll : List SessionDoc) (uid : String) : List SessionDoc :=
  coll.filter (fun d => d.user_id == uid)

/-- Does a document with the given `(session_name, user_id)` filter exist? -/
def session_exists (coll : List SessionDoc) (uid name : String) : Bool :=
  coll.any (fun d => d.session_name == name && d.user_id == uid)

/-- The session names the user sees in the sidebar. -/
def names_of (coll : List SessionDoc) (uid : String) : List String :=
  (find_sessions coll uid).map (fun d => d.session_name)

/-- The per-user name-uniqueness invariant claimed by the spec data model. -/
def unique_names (coll : List SessionDoc) (uid : String) : Prop :=
  (names_of coll uid).Nodup

instance (coll : List SessionDoc) (uid : String) : Decidable (unique_names coll uid) :=
  inferInstanceAs (Decidable (names_of coll uid).Nodup)

/-- The Start New Session handler (src/app.py lines 234-243): counts the
user's sessions, derives `"Session {count+1}"`, and inserts it without any
uniqueness check. Returns the new collection and the derived name. -/
def start_new_session (coll : List SessionDoc) (uid : String) :
    List SessionDoc × String :=
  let n := (find_sessions coll uid).length + 1
  let name := "Session " ++ toString n
  (coll ++ [{ user_id := uid, session_name := name }], name)

/-- The rename handler (src/app.py lines 311-315): `update_one` on filter
`(session_name, user_id)` setting `session_name` to the new name — first
matching document is updated, no upsert, no check that the new name is free. -/
def rename_session (coll : List SessionDoc) (uid oldName newName : String) :
    List SessionDoc :=
  match coll with
  | [] => []
  | d :: rest =>
    if d.session_name == oldName && d.user_id == uid then
      { d with session_name := newName } :: rest
    else
      d :: rename_session rest uid oldName newName

/-- The delete handler's store action (src/app.py line 301):
`delete_one({"session_name": ..., "user_id": ...})` removes the first match. -/
def delete_session (coll : List SessionDoc) (uid name : String) : List SessionDoc :=
  match coll with
  | [] => []
  | d :: rest =>
    if d.session_name == name && d.user_id == uid then rest
    else d :: delete_session rest uid name

/-- The result-persistence write (src/app.py lines 360-364): `update_one` on
filter `(session_name, user_id)` with `$set {transcription, summary,
filename}` and `upsert=True` — first match is updated; with no match, a new
document made of the filter fields plus the set fields is inserted. -/
def set_result (coll : List SessionDoc) (uid name t s f : String) : List SessionDoc :=
  match coll with
  | [] => [{ user_id := uid, session_name := name, transcription := some t,
             summary := some s, filename := some f }]
  | d :: rest =>
    if d.session_name == name && d.user_id == uid then
      { d with transcription := some t, summary := some s, filename := some f } :: rest
    else
      d :: set_result rest uid name t s f

/-! ### The Process File handler (src/app.py lines 339-367, store part) -/

/-- The store- and file-system-affecting core of the Process File handler:
`normalized` is the value of `wav_file_path` after the convert/extract
branch (lines 346-352); transcription and summarization then run as in the
source, and the `update_one ... upsert=True` write happens only when the
transcript is non-None, always carrying the full triple. Returns the
collection and file system after the click. -/
def process_file (coll : List SessionDoc) (uid sname : String)
    (normalized : Option String) (recognize : TranscribeOutcome)
    (engine : String → Except String String) (lang_code filename : String)
    (fs : List String) : List SessionDoc × List String :=
  match normalized with
  | none => (coll, fs)
  | some wav =>
    match transcribe_audio fs recognize wav with
    | (none, fsAfter) => (coll, fsAfter)
    | (some t, fsAfter) =>
      let summary := summarize_text engine t lang_code
      (set_result coll uid sname t summary filename, fsAfter)

/-! ### UI session state (`st.session_state`) and its handlers -/

/-- The `st.session_state` fields the handlers mutate. The cached `sessions`
dict is recomputed from the store on each interaction and is not part of the
state machine proper, so it is omitted here. -/
structure UIState where
  user_id : Option String
  selected_session : Option String
  rename_mode : Option String
  file_uploader_key : Nat
deriving DecidableEq

/-- The Login button handler (src/app.py lines 249-258). `authOk` is the
value of `user and check_password(...)`; on success the user is set and the
selection cleared, on failure only the error message is shown. Note: this
handler does not touch `file_uploader_key`. -/
def login_handler (st : UIState) (uid : String) (authOk : Bool) : UIState :=
  if authOk then
    { st with user_id := some uid, selected_session := none }
  else
    st

/-- The Logout button handler (src/app.py lines 227-232). -/
def logout_handler (st : UIState) : UIState :=
  { st with user_id := none, selected_session := none,
            file_uploader_key := st.file_uploader_key + 1 }

/-- The UI part of the Start New Session handler (src/app.py lines 240-243). -/
def new_session_handler (st : UIState) (new_session_name : String) : UIState :=
  { st with selected_session := some new_session_name,
            file_uploader_key := st.file_uploader_key + 1 }

/-- The session-button handler (src/app.py lines 294-297): switching to a
different session selects it and bumps the key; clicking the already selected
session changes nothing. -/
def switch_session_handler (st : UIState) (session_name : String) : UIState :=
  if st.selected_session == some session_name then
    st
  else
    { st with selected_session := some session_name,
              file_uploader_key := st.file_uploader_key + 1 }

/-- The UI part of the Save Name (rename) handler
(src/app.py lines 311-320). -/
def rename_save_handler (st : UIState) (session_to_rename new_name : String) :
    UIState :=
  { st with
      selected_session :=
        if st.selected_session == some session_to_rename then some new_name
        else st.selected_session,
      rename_mode := none,
      file_uploader_key := st.file_uploader_key + 1 }

/-- The UI part of the delete handler (src/app.py lines 300-306). -/
def delete_handler (st : UIState) (session_name : String) : UIState :=
  { st with
      selected_session :=
        if st.selected_session == some session_name then none
        else st.selected_session,
      file_uploader_key := st.file_uploader_key + 1 }

/-- The UI part of pipeline completion (src/app.py line 366): the uploader
key is bumped after the result write. -/
def pipeline_complete_handler (st : UIState) : UIState :=
  { st with file_uploader_key := st.file_uploader_key + 1 }

/-! ### Login evaluation (src/app.py lines 249-258) -/

/-- What the Login button shows: a welcome (success) or an error message. -/
inductive LoginResult where
  | success (uid : String)
  | failure (msg : String)
deriving DecidableEq

/-- Whether a login result is a success. -/
def LoginResult.isSuccess : LoginResult → Bool
  | LoginResult.success _ => true
  | LoginResult.failure _ => false

/-- The credential check of the Login handler: `users_collection.find_one`
then `check_password`. The `users` collection maps `user_id` to the stored
(opaque) bcrypt hash; `checkpw` stands for `bcrypt.checkpw`. Both the
missing-user case and the wrong-password case fall into the same `else`
branch showing `"Invalid credentials!"`. -/
def login_eval (users : List (String × String)) (checkpw : String → String → Bool)
    (uid password : String) : LoginResult :=
  match users.find? (fun u => u.1 == uid) with
  | some u =>
    if checkpw password u.2 then LoginResult.success uid
    else LoginResult.failure "Invalid credentials!"
  | none => LoginResult.failure "Invalid credentials!"

/-! ## Helper lemmas for the session-name uniqueness analysis -/

/-- Unfolding `names_of` over a cons cell of the collection. -/
theorem names_of_cons (d : SessionDoc) (rest : List SessionDoc) (uid : String) :
    names_of (d :: rest) uid =
      if d.user_id == uid then d.session_name :: names_of rest uid
      else names_of rest uid := by
  simp only [names_of, find_sessions, List.filter_cons]
  cases h : d.user_id == uid <;> simp [h]

/-- A name visible after a rename was either already visible or is the new
name. -/
theorem mem_names_rename (coll : List SessionDoc) (uid oldName newName x : String)
    (hx : x ∈ names_of (rename_session coll uid oldName newName) uid) :
    x ∈ names_of coll uid ∨ x = newName := by
  induction coll with
  | nil => simp [rename_session, names_of, find_sessions] at hx
  | cons d rest ih =>
    simp only [rename_session] at hx
    by_cases hc : (d.session_name == oldName && d.user_id == uid) = true
    · rw [if_pos hc] at hx
      have hc' := hc
      rw [Bool.and_eq_true] at hc'
      rw [names_of_cons, hc'.2, if_pos rfl] at hx
      rw [names_of_cons, hc'.2, if_pos rfl]
      rcases List.mem_cons.mp hx with h1 | h2
      · right; exact h1
      · left; exact List.mem_cons_of_mem _ h2
    · rw [if_neg hc] at hx
      rw [names_of_cons] at hx
      rw [names_of_cons]
      by_cases hd : (d.user_id == uid) = true
      · rw [if_pos hd] at hx ⊢
        rcases List.mem_cons.mp hx with h1 | h2
        · left; rw [h1]; exact List.mem_cons_self _ _
        · rcases ih h2 with h3 | h3
          · left; exact List.mem_cons_of_mem _ h3
          · right; exact h3
      · rw [if_neg hd] at hx ⊢
        exact ih hx

/-- Renaming to a name no session of the user holds keeps the sidebar names
duplicate-free. -/
theorem rename_preserves_nodup (coll : List SessionDoc) (uid oldName newName : String)
    (hu : (names_of coll uid).Nodup)
    (hfresh : newName ∉ names_of coll uid) :
    (names_of (rename_session coll uid oldName newName) uid).Nodup := by
  induction coll with
  | nil => simp [rename_session, names_of, find_sessions]
  | cons d rest ih =>
    simp only [rename_session]
    by_cases hc : (d.session_name == oldName && d.user_id == uid) = true
    · rw [if_pos hc]
      have hc' := hc
      rw [Bool.and_eq_true] at hc'
      rw [names_of_cons, hc'.2, if_pos rfl] at hu hfresh
      rw [names_of_cons, hc'.2, if_pos rfl]
      exact List.nodup_cons.mpr
        ⟨fun hmem => hfresh (List.mem_cons_of_mem _ hmem), (List.nodup_cons.mp hu).2⟩
    · rw [if_neg hc]
      rw [names_of_cons] at hu hfresh
      rw [names_of_cons]
      by_cases hd : (d.user_id == uid) = true
      · rw [if_pos hd] at hu hfresh ⊢
        have hu1 := List.nodup_cons.mp hu
        refine List.nodup_cons.mpr
          ⟨?_, ih hu1.2 (fun hmem => hfresh (List.mem_cons_of_mem _ hmem))⟩
        intro hmem
        rcases mem_names_rename rest uid oldName newName d.session_name hmem with h3 | h3
        · exact hu1.1 h3
        · exact hfresh (h3 ▸ List.mem_cons_self _ _)
      · rw [if_neg hd] at hu hfresh ⊢
        exact ih hu hfresh

/-- Appending one document to the collection appends at most one sidebar
name. -/
theorem names_of_append_single (coll : List SessionDoc) (d : SessionDoc) (uid : String) :
    names_of (coll ++ [d]) uid =
      names_of coll uid ++ (if d.user_id == uid then [d.session_name] else []) := by
  simp only [names_of, find_sessions, List.filter_append, List.map_append]
  cases h : d.user_id == uid <;> simp [h]

/-- Appending a fresh element keeps a list duplicate-free. -/
theorem nodup_append_of_fresh (l : List String) (a : String)
    (hu : l.Nodup) (ha : a ∉ l) : (l ++ [a]).Nodup := by
  rw [List.nodup_append]
  exact ⟨hu, List.nodup_singleton _, by
    intro x hx hb
    rw [List.mem_singleton] at hb
    subst hb
    exact ha hx⟩

/-- Inserting a document of the user whose name no session of the user holds
keeps the sidebar names duplicate-free. -/
theorem create_names_nodup (coll : List SessionDoc) (d : SessionDoc) (uid : String)
    (hd : d.user_id = uid) (hu : (names_of coll uid).Nodup)
    (hfresh : d.session_name ∉ names_of coll uid) :
    (names_of (coll ++ [d]) uid).Nodup := by
  rw [names_of_append_single, hd, if_pos (beq_self_eq_true uid)]
  exact nodup_append_of_fresh _ _ hu hfresh

/-! ## Claim theorems -/

/-- C1 (counterexample): the claim says the late `setResult` write against a
deleted session is a no-op that does not recreate the record. In the code the
write is `update_one(..., upsert=True)`: after deleting the only session, the
write inserts a fresh record, so `(sessionName, userId)` exists again. -/
theorem set_result_after_delete_recreates_record :
    session_exists
      (delete_session [{ user_id := "alice", session_name := "Session 1" }]
        "alice" "Session 1") "alice" "Session 1" = false ∧
    session_exists
      (set_result
        (delete_session [{ user_id := "alice", session_name := "Session 1" }]
          "alice" "Session 1")
        "alice" "Session 1" "a transcript" "a summary" "talk.mp3")
      "alice" "Session 1" = true := by
  decide

/-- C1 (amended): the late `setResult` write never raises, but because of
`upsert=True` it is not conditioned on the record still existing: when no
record with that `(sessionName, userId)` remains, it inserts a new record
carrying the full `{transcription, summary, filename}` triple, recreating the
deleted session. -/
theorem set_result_upserts_when_record_missing (coll : List SessionDoc)
    (uid name t s f : String)
    (h : session_exists coll uid name = false) :
    set_result coll uid name t s f =
      coll ++ [{ user_id := uid, session_name := name, transcription := some t,
                 summary := some s, filename := some f }] := by
  induction coll with
  | nil => rfl
  | cons d rest ih =>
    simp only [session_exists, List.any_cons, Bool.or_eq_false_iff] at h
    simp only [set_result, h.1, Bool.false_eq_true, if_false, List.cons_append]
    rw [ih]
    simp [session_exists, h.2]

/-- C1 (witness): the upsert insertion evaluated on a store holding only a
record of another user. -/
theorem set_result_upserts_when_record_missing_witness :
    session_exists [{ user_id := "bob", session_name := "Session 1" }]
      "alice" "Session 1" = false ∧
    set_result [{ user_id := "bob", session_name := "Session 1" }]
      "alice" "Session 1" "a transcript" "a summary" "talk.mp3" =
      [{ user_id := "bob", session_name := "Session 1" },
       { user_id := "alice", session_name := "Session 1",
         transcription := some "a transcript", summary := some "a summary",
         filename := some "talk.mp3" }] :=
  ⟨by decide,
   set_result_upserts_when_record_missing
     [{ user_id := "bob", session_name := "Session 1" }]
     "alice" "Session 1" "a transcript" "a summary" "talk.mp3" (by decide)⟩

/-- C2 (counterexample): the claim quotes the placeholder as
`"summary unavailable"`, but `summarize_text` returns the capitalized string
`"Summary unavailable"` when the engine fails. -/
theorem summarize_placeholder_is_capitalized :
    summarize_text (fun _ => Except.error "quota exceeded") "a transcript" "en-US"
      = "Summary unavailable" ∧
    (summarize_text (fun _ => Except.error "quota exceeded") "a transcript" "en-US"
      == "summary unavailable") = false := by
  decide

/-- C2 (amended): when summarization fails, the Process File handler
substitutes the placeholder `"Summary unavailable"` (capital S) and still
persists the session record via `set_result`, which writes the complete
`{transcription, summary, filename}` triple in one `$set`; transcription is
never written alone. -/
theorem process_file_persists_placeholder_triple (coll : List SessionDoc)
    (uid sname wav t lang_code fn : String) (fs : List String)
    (engine : String → Except String String) (e : String)
    (h : engine ("Give a very short summary of this text in "
          ++ lang_name_of lang_code ++ ":\n" ++ t) = Except.error e) :
    (process_file coll uid sname (some wav) (TranscribeOutcome.text t)
        engine lang_code fn fs).1
      = set_result coll uid sname t "Summary unavailable" fn := by
  simp [process_file, transcribe_audio, summarize_text, h]

/-- C2 (witness): a failing summarization engine evaluated on a concrete
pipeline run. -/
theorem process_file_persists_placeholder_triple_witness :
    (fun _ => (Except.error "quota exceeded" : Except String String))
      ("Give a very short summary of this text in " ++ lang_name_of "en-US"
        ++ ":\n" ++ "hello world") = Except.error "quota exceeded" ∧
    (process_file [] "alice" "Session 1" (some "tmp.wav")
        (TranscribeOutcome.text "hello world")
        (fun _ => Except.error "quota exceeded") "en-US" "talk.mp4" ["tmp.wav"]).1
      = set_result [] "alice" "Session 1" "hello world" "Summary unavailable"
          "talk.mp4" :=
  ⟨rfl,
   process_file_persists_placeholder_triple [] "alice" "Session 1" "tmp.wav"
     "hello world" "en-US" "talk.mp4" ["tmp.wav"]
     (fun _ => Except.error "quota exceeded") "quota exceeded" rfl⟩

/-- C3 (confirmed): `translate_summary` never fails outward — whenever the
underlying engine raises, the original text is returned unchanged. -/
theorem translate_summary_returns_original_on_error
    (engine : String → String → Except String String) (s l e : String)
    (h : engine s (split_head l) = Except.error e) :
    translate_summary engine s l = s := by
  simp [translate_summary, h]

/-- C3 (witness): an always-failing engine evaluated on a concrete text. -/
theorem translate_summary_returns_original_on_error_witness :
    (fun _ _ => (Except.error "engine down" : Except String String))
      "hello" (split_head "te-IN") = Except.error "engine down" ∧
    translate_summary (fun _ _ => Except.error "engine down") "hello" "te-IN"
      = "hello" :=
  ⟨rfl,
   translate_summary_returns_original_on_error
     (fun _ _ => Except.error "engine down") "hello" "te-IN" "engine down" rfl⟩

/-- C4 (counterexample): the claim says every email-send request validates
the recipient before delivery, but `send_notes_email` performs no validation:
with the malformed recipient `"not-an-email"` it still attempts the SMTP
connection and sends. -/
theorem send_notes_email_skips_validation :
    re_match_email "not-an-email".data = false ∧
    (send_notes_email (Except.ok ()) "not-an-email" "my notes").smtpAttempted
      = true ∧
    (send_notes_email (Except.ok ()) "not-an-email" "my notes").outcome
      = EmailOutcome.sent :=
  ⟨by decide, rfl, rfl⟩

/-- C4 (amended): only the summary path `send_email` validates the recipient
against the pattern before delivery; for every malformed address it fails
fast with the invalid-address outcome and attempts no SMTP connection.
`send_notes_email` attempts delivery without validating. -/
theorem send_email_rejects_malformed_address (transport : Except String Unit)
    (user_email summary_text : String)
    (h : re_match_email user_email.data = false) :
    send_email transport user_email summary_text =
      { smtpAttempted := false, outcome := EmailOutcome.invalidAddress } := by
  simp [send_email, h]

/-- C4 (witness): the malformed address of the spec scenario evaluated
against a transport that would succeed. -/
theorem send_email_rejects_malformed_address_witness :
    re_match_email "not-an-email".data = false ∧
    send_email (Except.ok ()) "not-an-email" "the summary" =
      { smtpAttempted := false, outcome := EmailOutcome.invalidAddress } :=
  ⟨by decide,
   send_email_rejects_malformed_address (Except.ok ()) "not-an-email"
     "the summary" (by decide)⟩

/-- C5 (confirmed): `transcribe_audio` removes the backing file of the
normalized audio handle on every exit path — success, unintelligible audio,
and service failure alike — because the unlink sits in a `finally` block. -/
theorem transcribe_audio_deletes_backing_file (fs : List String)
    (recognize : TranscribeOutcome) (audio_file : String) :
    ((transcribe_audio fs recognize audio_file).2.contains audio_file) = false := by
  cases recognize <;> simp [transcribe_audio, deleteFile]

/-- C6 (confirmed): on a video without an audio track,
`extract_audio_from_video` returns no handle, reports the no-audio-track
failure, and leaves the file system exactly as it found it — the temporary
video copy is unlinked before returning and no wav file is ever created. -/
theorem extract_audio_no_audio_track_clean (fs : List String)
    (temp_video_path wav_file_path : String) (writeAudio : Except String Unit)
    (h : temp_video_path ∉ fs) :
    extract_audio_from_video fs temp_video_path wav_file_path
        (Except.ok false) writeAudio =
      { handle := none, fs := fs, err := some VideoErr.noAudioTrack } := by
  have hfs : fs.filter (fun q => q != temp_video_path) = fs := by
    rw [List.filter_eq_self]
    intro a ha
    rw [bne_iff_ne]
    rintro rfl
    exact h ha
  simp [extract_audio_from_video, deleteFile, hfs]

/-- C6 (witness): a no-audio-track video processed against an empty scratch
directory. -/
theorem extract_audio_no_audio_track_clean_witness :
    ("video_tmp.mp4" : String) ∉ ([] : List String) ∧
    extract_audio_from_video [] "video_tmp.mp4" "audio_tmp.wav"
        (Except.ok false) (Except.ok ()) =
      { handle := none, fs := [], err := some VideoErr.noAudioTrack } :=
  ⟨by decide,
   extract_audio_no_audio_track_clean [] "video_tmp.mp4" "audio_tmp.wav"
     (Except.ok ()) (by decide)⟩

/-- C7 (counterexample): neither handler enforces per-user session-name
uniqueness. Renaming `"Session 1"` to `"Session 2"` while another session
already holds that name is not rejected and yields two sessions named
`"Session 2"`; and with the user holding exactly one session named
`"Session 2"`, the count-based Start New Session handler derives the
colliding name `"Session 2"` again. -/
theorem session_name_uniqueness_not_enforced :
    names_of [{ user_id := "alice", session_name := "Session 1" },
              { user_id := "alice", session_name := "Session 2" }] "alice"
      = ["Session 1", "Session 2"] ∧
    names_of
      (rename_session
        [{ user_id := "alice", session_name := "Session 1" },
         { user_id := "alice", session_name := "Session 2" }]
        "alice" "Session 1" "Session 2") "alice"
      = ["Session 2", "Session 2"] ∧
    (start_new_session [{ user_id := "alice", session_name := "Session 2" }]
        "alice").2 = "Session 2" ∧
    names_of [{ user_id := "alice", session_name := "Session 2" }] "alice"
      = ["Session 2"] := by
  decide

/-- C7 (amended): the handlers perform no uniqueness check, so per-user name
uniqueness is preserved only under freshness side conditions the code does
not test: renaming preserves it when the new name is not already held by a
session of the user, and creation preserves it when the derived
`"Session {count+1}"` name is not already held. -/
theorem session_ops_preserve_uniqueness_under_freshness (coll : List SessionDoc)
    (uid oldName newName : String)
    (hu : unique_names coll uid)
    (hfresh : newName ∉ names_of coll uid)
    (hcreate : (start_new_session coll uid).2 ∉ names_of coll uid) :
    unique_names (rename_session coll uid oldName newName) uid ∧
    unique_names (start_new_session coll uid).1 uid := by
  exact ⟨rename_preserves_nodup coll uid oldName newName hu hfresh,
         create_names_nodup coll _ uid rfl hu hcreate⟩

/-- C7 (witness): fresh rename target and fresh derived name on a one-session
store. -/
theorem session_ops_preserve_uniqueness_under_freshness_witness :
    unique_names [{ user_id := "alice", session_name := "Session 1" }] "alice" ∧
    ("Renamed" : String)
      ∉ names_of [{ user_id := "alice", session_name := "Session 1" }] "alice" ∧
    (start_new_session [{ user_id := "alice", session_name := "Session 1" }]
        "alice").2
      ∉ names_of [{ user_id := "alice", session_name := "Session 1" }] "alice" ∧
    (unique_names
      (rename_session [{ user_id := "alice", session_name := "Session 1" }]
        "alice" "Session 1" "Renamed") "alice" ∧
     unique_names
      (start_new_session [{ user_id := "alice", session_name := "Session 1" }]
        "alice").1 "alice") :=
  ⟨by decide, by decide, by decide,
   session_ops_preserve_uniqueness_under_freshness
     [{ user_id := "alice", session_name := "Session 1" }]
     "alice" "Session 1" "Renamed" (by decide) (by decide) (by decide)⟩

/-- C8 (confirmed): the language table is a bijection over the ten supported
languages — every `(name, code)` entry round-trips through forward lookup and
reverse lookup in both directions, so reverse lookup is well-defined. -/
theorem languages_table_bijective (n c : String) (h : (n, c) ∈ languages) :
    languageTag_code n = some c ∧ languageTag_name c = some n := by
  fin_cases h <;> decide

/-- C8 (witness): the round trip evaluated on the Telugu entry. -/
theorem languages_table_bijective_witness :
    (("Telugu", "te-IN") : String × String) ∈ languages ∧
    (languageTag_code "Telugu" = some "te-IN" ∧
     languageTag_name "te-IN" = some "Telugu") :=
  ⟨by decide, languages_table_bijective "Telugu" "te-IN" (by decide)⟩

/-- C9 (counterexample): the claim says every state-changing action
increments `uploadGeneration` (`file_uploader_key`), but a successful login —
which changes the state by setting the user — leaves the key unchanged. -/
theorem login_handler_keeps_uploader_key :
    login_handler
      { user_id := none, selected_session := none, rename_mode := none,
        file_uploader_key := 7 } "alice" true =
      { user_id := some "alice", selected_session := none, rename_mode := none,
        file_uploader_key := 7 } := by
  decide

/-- C9 (amended): every state-changing UI action except login — logout,
starting a new session, switching to a different session, saving a rename,
deleting a session, and pipeline completion — increments the uploader key by
one; the login handler sets the user and clears the selection but leaves the
key unchanged. -/
theorem handlers_bump_uploader_key (st : UIState) (nm oldName newName : String)
    (h : (st.selected_session == some nm) = false) :
    (logout_handler st).file_uploader_key = st.file_uploader_key + 1 ∧
    (new_session_handler st nm).file_uploader_key = st.file_uploader_key + 1 ∧
    (switch_session_handler st nm).file_uploader_key = st.file_uploader_key + 1 ∧
    (rename_save_handler st oldName newName).file_uploader_key
      = st.file_uploader_key + 1 ∧
    (delete_handler st nm).file_uploader_key = st.file_uploader_key + 1 ∧
    (pipeline_complete_handler st).file_uploader_key
      = st.file_uploader_key + 1 := by
  refine ⟨rfl, rfl, ?_, rfl, rfl, rfl⟩
  simp [switch_session_handler, h]

/-- C9 (witness): the six incrementing handlers evaluated on a concrete
state. -/
theorem handlers_bump_uploader_key_witness :
    (({ user_id := some "alice", selected_session := none, rename_mode := none,
        file_uploader_key := 5 } : UIState).selected_session
      == some "Session 1") = false ∧
    ((logout_handler
        { user_id := some "alice", selected_session := none, rename_mode := none,
          file_uploader_key := 5 }).file_uploader_key = 5 + 1 ∧
     (new_session_handler
        { user_id := some "alice", selected_session := none, rename_mode := none,
          file_uploader_key := 5 } "Session 1").file_uploader_key = 5 + 1 ∧
     (switch_session_handler
        { user_id := some "alice", selected_session := none, rename_mode := none,
          file_uploader_key := 5 } "Session 1").file_uploader_key = 5 + 1 ∧
     (rename_save_handler
        { user_id := some "alice", selected_session := none, rename_mode := none,
          file_uploader_key := 5 } "Session 1" "Renamed").file_uploader_key
        = 5 + 1 ∧
     (delete_handler
        { user_id := some "alice", selected_session := none, rename_mode := none,
          file_uploader_key := 5 } "Session 1").file_uploader_key = 5 + 1 ∧
     (pipeline_complete_handler
        { user_id := some "alice", selected_session := none, rename_mode := none,
          file_uploader_key := 5 }).file_uploader_key = 5 + 1) :=
  ⟨by decide,
   handlers_bump_uploader_key
     { user_id := some "alice", selected_session := none, rename_mode := none,
       file_uploader_key := 5 } "Session 1" "Session 1" "Renamed" (by decide)⟩

/-- C10 (confirmed): any two failed login attempts are observationally
identical — whether the user id is absent from the store or present with a
non-matching password, `login_eval` produces the same single
`"Invalid credentials!"` failure, so login alone does not reveal whether an
account exists. -/
theorem login_failures_indistinguishable (users1 users2 : List (String × String))
    (cp1 cp2 : String → String → Bool) (u1 p1 u2 p2 : String)
    (h1 : (login_eval users1 cp1 u1 p1).isSuccess = false)
    (h2 : (login_eval users2 cp2 u2 p2).isSuccess = false) :
    login_eval users1 cp1 u1 p1 = login_eval users2 cp2 u2 p2 := by
  have key : ∀ (users : List (String × String)) (cp : String → String → Bool)
      (u p : String), (login_eval users cp u p).isSuccess = false →
      login_eval users cp u p = LoginResult.failure "Invalid credentials!" := by
    intro users cp u p h
    unfold login_eval at h ⊢
    cases hf : users.find? (fun x => x.1 == u) with
    | none => rfl
    | some v =>
      rw [hf] at h
      by_cases hc : cp p v.2 = true
      · simp [hc, LoginResult.isSuccess] at h
      · simp [hc]
  rw [key users1 cp1 u1 p1 h1, key users2 cp2 u2 p2 h2]

/-- C10 (witness): a missing-user failure and a wrong-password failure
compared on concrete stores. -/
theorem login_failures_indistinguishable_witness :
    (login_eval [] (fun _ _ => false) "alice" "pw").isSuccess = false ∧
    (login_eval [("alice", "hash")] (fun _ _ => false) "alice" "wrong").isSuccess
      = false ∧
    login_eval [] (fun _ _ => false) "alice" "pw"
      = login_eval [("alice", "hash")] (fun _ _ => false) "alice" "wrong" :=
  ⟨rfl, rfl,
   login_failures_indistinguishable [] [("alice", "hash")]
     (fun _ _ => false) (fun _ _ => false) "alice" "pw" "alice" "wrong" rfl rfl⟩

end AudioSummarizer
